import Mathlib

/- Shallow embedding of src/src/err_netconf.c, the NETCONF error translator of
   netopeer2.  C strings are modelled as `List Char` (no NUL handling is needed
   because no message contains an embedded NUL in the model), machine integers
   as `Nat`/`Int` with explicit reduction modulo 2 ^ 32 where the C code
   converts an `int` to `uint32_t`.  The external collaborators
   (`np_get_nc_sess_by_id` composed with `nc_session_get_id`) are modelled as a
   registry function from the looked-up session id to the optional protocol id
   of the resolved session.  Each translator returns the structured error it
   would pass to `sr_session_set_netconf_error` (an `Option` for the
   translators that can return silently, with `none` meaning no emission or a
   violated `assert`/undefined behaviour). -/

namespace ErrNetconf

abbrev Msg := List Char

/- strstr / strrchr / strncmp / atoi primitives, translated from their C
   semantics on NUL-free strings. -/

def isPre : Msg → Msg → Bool
  | [], _ => true
  | _ :: _, [] => false
  | a :: as, b :: bs => a == b && isPre as bs

def findSub (nee : Msg) : Msg → Option Nat
  | [] => if isPre nee [] then some 0 else none
  | c :: t => if isPre nee (c :: t) then some 0 else (findSub nee t).map (· + 1)

def containsSub (nee hay : Msg) : Bool := (findSub nee hay).isSome

def strrchrIdx (c : Char) : Msg → Option Nat
  | [] => none
  | x :: t =>
    match strrchrIdx c t with
    | some j => some (j + 1)
    | none => if x == c then some 0 else none

def isSpaceC (c : Char) : Bool :=
  c == ' ' || c == '\t' || c == '\n' || c == '\x0b' || c == '\x0c' || c == '\r'

def digitsAcc : Msg → Nat → Nat
  | [], acc => acc
  | c :: t, acc => if c.isDigit then digitsAcc t (acc * 10 + (c.toNat - 48)) else acc

def atoiChars (l : Msg) : Int :=
  match l.dropWhile isSpaceC with
  | '-' :: t => - (digitsAcc t 0 : Int)
  | '+' :: t => (digitsAcc t 0 : Int)
  | l1 => (digitsAcc l1 0 : Int)

/- Conversion of a C int to uint32_t (reduction modulo 2 ^ 32). -/
def toUInt32Nat (i : Int) : Nat := (i % (2 ^ 32 : Int)).toNat

/- The structured error passed to sr_session_set_netconf_error: error type,
   error tag, optional app tag, optional path, message, named info elements
   in order. -/
structure StructuredError where
  errorType : String
  errorTag : String
  errorAppTag : Option String
  errorPath : Option String
  message : String
  infoElements : List (String × String)
deriving DecidableEq

/- sr_error_info_t: the diagnostic record; only err[0].message is consulted by
   the translator, the remaining messages are carried to state independence. -/
structure ErrorInfo where
  firstMsg : Msg
  restMsgs : List Msg
deriving DecidableEq

/- External session registry: np_get_nc_sess_by_id composed with
   nc_session_get_id, i.e. looked-up session id to optional protocol id. -/
abbrev Registry := Nat → Option Nat

def dsLockedMarker : Msg := "DS-locked by session ".toList

def lockDeniedText : String :=
  "Access to the requested lock is denied because the lock is currently held by another entity."

def inUseText : String :=
  "The request requires a resource that already is in use."

def np_err_sr2nc_lock_denied (reg : Registry) (err_info : ErrorInfo) :
    Option StructuredError :=
  match findSub dsLockedMarker err_info.firstMsg with
  | none => none
  | some i =>
    let sid := atoiChars (err_info.firstMsg.drop (i + dsLockedMarker.length))
    let ncid := (reg (toUInt32Nat sid)).getD 0
    some { errorType := "protocol", errorTag := "lock-denied", errorAppTag := none,
           errorPath := none, message := lockDeniedText,
           infoElements := [("session-id", toString ncid)] }

def np_err_sr2nc_in_use (reg : Registry) (err_info : ErrorInfo) :
    Option StructuredError :=
  match findSub dsLockedMarker err_info.firstMsg with
  | none => none
  | some i =>
    let sid := atoiChars (err_info.firstMsg.drop (i + dsLockedMarker.length))
    let ncid := (reg (toUInt32Nat sid)).getD 0
    some { errorType := "protocol", errorTag := "in-use", errorAppTag := none,
           errorPath := none, message := inUseText,
           infoElements := [("session-id", toString ncid)] }

def np_err_sr2nc_same_ds (err_msg : String) : StructuredError :=
  { errorType := "application", errorTag := "invalid-value", errorAppTag := none,
    errorPath := none, message := err_msg, infoElements := [] }

def np_err_missing_element (elem_name : String) : StructuredError :=
  { errorType := "protocol", errorTag := "missing-element", errorAppTag := none,
    errorPath := none, message := "An expected element is missing.",
    infoElements := [("bad-element", elem_name)] }

def np_err_bad_element (elem_name description : String) : StructuredError :=
  { errorType := "protocol", errorTag := "bad-element", errorAppTag := none,
    errorPath := none, message := description,
    infoElements := [("bad-element", elem_name)] }

def np_err_invalid_value (description : String) (bad_elem_name : Option String) :
    StructuredError :=
  match bad_elem_name with
  | some n =>
    { errorType := "application", errorTag := "invalid-value", errorAppTag := none,
      errorPath := none, message := description,
      infoElements := [("bad-element", n)] }
  | none =>
    { errorType := "application", errorTag := "invalid-value", errorAppTag := none,
      errorPath := none, message := description, infoElements := [] }

def np_err_ntf_sub_no_such_sub (message : String) : StructuredError :=
  { errorType := "application", errorTag := "invalid-value",
    errorAppTag := some "ietf-subscribed-notifications:no-such-subscription",
    errorPath := none, message := message, infoElements := [] }

/- np_err_sr2nc_edit either synthesizes one structured error
   (sr_session_set_netconf_error) or copies the original record verbatim
   (sr_session_dup_error). -/
inductive Emission where
  | set (e : StructuredError)
  | dup
deriving DecidableEq

def dataLocMarker : Msg := "data location ".toList
def schemaLocMarker : Msg := "Schema location ".toList
def noTargetMarker : Msg := "no existing target instance".toList
def noInstMarker : Msg := "required instance not found".toList

/- strndup(ptr, strlen(ptr) - 2) with size_t arithmetic: when the string is
   shorter than 2 the subtraction wraps around and strndup copies the whole
   string. -/
def strndupLenMinus2 (tail : Msg) : Msg :=
  if 2 ≤ tail.length then tail.take (tail.length - 2) else tail

def extractPath (msg : Msg) : Option Msg :=
  match findSub dataLocMarker msg with
  | some i => some (strndupLenMinus2 (msg.drop (i + dataLocMarker.length)))
  | none =>
    match findSub schemaLocMarker msg with
    | some i => some (strndupLenMinus2 (msg.drop (i + schemaLocMarker.length)))
    | none => none

/- strncmp(msg, lit, n) == 0, for n at most the length of the literal. -/
def startsWithN (msg : Msg) (lit : String) (n : Nat) : Bool :=
  isPre (lit.toList.take n) msg

/- Translation of np_err_sr2nc_edit.  `none` models an aborted run: a failed
   assert (assert(path), assert(message[22]), assert(message[28])) or the
   undefined pointer arithmetic after a NULL strrchr/strchr result. -/
def np_err_sr2nc_edit (err_info : ErrorInfo) : Option Emission :=
  let msg := err_info.firstMsg
  let path? := extractPath msg
  if startsWithN msg "Unique data leaf(s)" 19 then
    match path? with
    | none => none
    | some path =>
      some (Emission.set
        { errorType := "protocol", errorTag := "operation-failed",
          errorAppTag := some "data-not-unique", errorPath := none,
          message := "Unique constraint violated.",
          infoElements := [("non-unique", String.mk path)] })
  else if startsWithN msg "Too many" 8 then
    match path? with
    | none => none
    | some path =>
      some (Emission.set
        { errorType := "protocol", errorTag := "operation-failed",
          errorAppTag := some "too-many-elements", errorPath := some (String.mk path),
          message := "Too many elements.", infoElements := [] })
  else if startsWithN msg "Too few" 7 then
    match path? with
    | none => none
    | some path =>
      some (Emission.set
        { errorType := "protocol", errorTag := "operation-failed",
          errorAppTag := some "too-few-elements", errorPath := some (String.mk path),
          message := "Too few elements.", infoElements := [] })
  else if startsWithN msg "Must condition" 14 then
    match strrchrIdx '(' msg, path? with
    | some j, some path =>
      some (Emission.set
        { errorType := "protocol", errorTag := "operation-failed",
          errorAppTag := some "must-violation", errorPath := some (String.mk path),
          message := String.mk (msg.take (j - 1)), infoElements := [] })
    | _, _ => none
  else if startsWithN msg "Invalid leafref value" 21 && containsSub noTargetMarker msg then
    if msg.get? 22 = some '\"' then
      match findSub ['\"'] (msg.drop 23), path? with
      | some q, some path =>
        some (Emission.set
          { errorType := "protocol", errorTag := "data-missing",
            errorAppTag := some "instance-required", errorPath := some (String.mk path),
            message := String.mk ("Required leafref target with value \"".toList ++
              (msg.drop 23).take q ++ "\" missing.".toList),
            infoElements := [] })
      | _, _ => none
    else none
  else if startsWithN msg "Invalid instance-identifier" 26 && containsSub noInstMarker msg then
    if msg.get? 28 = some '\"' then
      match findSub ['\"'] (msg.drop 29), path? with
      | some q, some path =>
        some (Emission.set
          { errorType := "protocol", errorTag := "data-missing",
            errorAppTag := some "instance-required", errorPath := some (String.mk path),
            message := String.mk ("Required instance-identifier \"".toList ++
              (msg.drop 29).take q ++ "\" missing.".toList),
            infoElements := [] })
      | _, _ => none
    else none
  else if startsWithN msg "Mandatory choice" 16 then
    match path? with
    | some path =>
      match strrchrIdx '/' path with
      | some j =>
        some (Emission.set
          { errorType := "protocol", errorTag := "data-missing",
            errorAppTag := some "mandatory-choice",
            errorPath := some (String.mk (path.take (if j = 0 then 1 else j))),
            message := "Missing mandatory choice.",
            infoElements := [("missing-choice", String.mk path)] })
      | none => none
    | none => none
  else
    some Emission.dup


/- Correctness lemmas for the string-search primitives, connecting them to
   the declarative decomposition view used in the claim statements. -/

theorem isPre_iff (n h : Msg) : isPre n h = true ↔ ∃ t, h = n ++ t := by
  induction n generalizing h with
  | nil => simp [isPre]
  | cons a as ih =>
    cases h with
    | nil => simp [isPre]
    | cons b bs =>
      simp only [isPre, Bool.and_eq_true, beq_iff_eq, ih, List.cons_append,
        List.cons.injEq]
      constructor
      · rintro ⟨rfl, t, rfl⟩
        exact ⟨t, rfl, rfl⟩
      · rintro ⟨t, rfl, rfl⟩
        exact ⟨rfl, t, rfl⟩

theorem findSub_eq_some_decomp (nee h : Msg) (i : Nat)
    (hf : findSub nee h = some i) :
    ∃ a t, h = a ++ nee ++ t ∧ a.length = i := by
  induction h generalizing i with
  | nil =>
    unfold findSub at hf
    split at hf
    · next hp =>
      obtain ⟨t, ht⟩ := (isPre_iff _ _).mp hp
      cases hf
      exact ⟨[], t, by simpa using ht, rfl⟩
    · cases hf
  | cons c cs ih =>
    unfold findSub at hf
    split at hf
    · next hp =>
      obtain ⟨t, ht⟩ := (isPre_iff _ _).mp hp
      cases hf
      exact ⟨[], t, by simpa using ht, rfl⟩
    · next hp =>
      obtain ⟨j, hj, rfl⟩ := Option.map_eq_some'.mp hf
      obtain ⟨a, t, hat, hlen⟩ := ih j hj
      exact ⟨c :: a, t, by simp [hat], by simp [hlen]⟩

theorem findSub_isSome_of_isPre (nee h : Msg) (hp : isPre nee h = true) :
    (findSub nee h).isSome = true := by
  cases h with
  | nil => simp [findSub, hp]
  | cons c t => simp [findSub, hp]

theorem findSub_isSome_of_decomp (nee a t : Msg) :
    (findSub nee (a ++ nee ++ t)).isSome = true := by
  induction a with
  | nil =>
    exact findSub_isSome_of_isPre _ _ ((isPre_iff _ _).mpr ⟨t, by simp⟩)
  | cons c a ih =>
    have hr : ((c :: a) ++ nee ++ t : Msg) = c :: (a ++ nee ++ t) := by simp
    rw [hr]
    unfold findSub
    split
    · rfl
    · simpa using ih

theorem not_decomp_of_findSub_none (nee h : Msg) (hf : findSub nee h = none) :
    ¬ ∃ a t, h = a ++ nee ++ t := by
  rintro ⟨a, t, rfl⟩
  have hs := findSub_isSome_of_decomp nee a t
  rw [hf] at hs
  simp at hs

theorem strrchrIdx_get (c : Char) (l : Msg) (j : Nat)
    (h : strrchrIdx c l = some j) : l.get? j = some c := by
  induction l generalizing j with
  | nil => simp [strrchrIdx] at h
  | cons x t ih =>
    unfold strrchrIdx at h
    cases hs : strrchrIdx c t with
    | some j' =>
      simp only [hs] at h
      cases h
      simpa using ih j' hs
    | none =>
      simp only [hs] at h
      split at h
      · next hx =>
        cases h
        simp [List.get?, beq_iff_eq.mp hx]
      · cases h

theorem String_mk_ne_empty (l : Msg) (h : l ≠ []) : String.mk l ≠ "" := by
  intro he
  apply h
  simpa using congrArg String.data he

/- The invariant of claim C8 on one structured error. -/
def wfErr (e : StructuredError) : Prop :=
  e.errorTag ≠ "" ∧ e.message ≠ "" ∧ (e.infoElements.map Prod.fst).Nodup

example : extractPath "x data location /a/b\".".toList = some "/a/b".toList := by decide

example : np_err_sr2nc_edit ⟨"Some other validation failure.".toList, []⟩ =
    some Emission.dup := by decide

example : np_err_sr2nc_edit ⟨"Must condition x (data location /a/b).".toList, []⟩ =
    some (Emission.set
      { errorType := "protocol", errorTag := "operation-failed",
        errorAppTag := some "must-violation", errorPath := some "/a/b",
        message := "Must condition x", infoElements := [] }) := by decide

example : np_err_sr2nc_lock_denied (fun n => if n = 12 then some 34 else none)
    ⟨"Lock failed: DS-locked by session 12.".toList, []⟩ = some
      { errorType := "protocol", errorTag := "lock-denied", errorAppTag := none,
        errorPath := none, message := lockDeniedText,
        infoElements := [("session-id", "34")] } := by decide

/-- C1: for every diagnostic record whose first message contains the marker
"DS-locked by session ", np_err_sr2nc_lock_denied emits exactly one structured
error with errorType protocol, errorTag lock-denied, the fixed lock-denied
message text and a single info element "session-id" holding the decimal
rendering of the protocol id of the session resolved from the extracted
integer, or "0" when the lookup fails; for every diagnostic whose first
message lacks the marker it emits nothing and returns silently. -/
theorem C1_lock_denied_translation (reg : Registry) (d : ErrorInfo) :
    ((¬ ∃ a t, d.firstMsg = a ++ dsLockedMarker ++ t) →
      np_err_sr2nc_lock_denied reg d = none) ∧
    (∀ i, findSub dsLockedMarker d.firstMsg = some i →
      np_err_sr2nc_lock_denied reg d = some
        { errorType := "protocol", errorTag := "lock-denied", errorAppTag := none,
          errorPath := none, message := lockDeniedText,
          infoElements := [("session-id",
            toString ((reg (toUInt32Nat (atoiChars
              (d.firstMsg.drop (i + dsLockedMarker.length))))).getD 0))] }) := by
  constructor
  · intro hno
    cases hf : findSub dsLockedMarker d.firstMsg with
    | none => simp [np_err_sr2nc_lock_denied, hf]
    | some i =>
      obtain ⟨a, t, hat, _⟩ := findSub_eq_some_decomp _ _ _ hf
      exact absurd ⟨a, t, hat⟩ hno
  · intro i hf
    simp [np_err_sr2nc_lock_denied, hf]

/-- Witness for C1: a diagnostic with the marker and a resolvable session 12
whose protocol id is 34, and a diagnostic without the marker. -/
theorem C1_witness :
    np_err_sr2nc_lock_denied (fun n => if n = 12 then some 34 else none)
        ⟨"Lock failed: DS-locked by session 12.".toList, []⟩ = some
      { errorType := "protocol", errorTag := "lock-denied", errorAppTag := none,
        errorPath := none, message := lockDeniedText,
        infoElements := [("session-id", "34")] } ∧
    np_err_sr2nc_lock_denied (fun n => if n = 12 then some 34 else none)
        ⟨"no marker here".toList, []⟩ = none := by
  constructor
  · have h := (C1_lock_denied_translation (fun n => if n = 12 then some 34 else none)
      ⟨"Lock failed: DS-locked by session 12.".toList, []⟩).2 13 (by decide)
    rw [h]
    decide
  · exact (C1_lock_denied_translation _ _).1
      (not_decomp_of_findSub_none _ _ (by decide))

/-- C7: np_err_sr2nc_in_use emits exactly when np_err_sr2nc_lock_denied does
(the first message contains the "DS-locked by session " marker), performs the
same extraction and resolution, and emits an identical structured error except
errorTag in-use instead of lock-denied and the fixed in-use message text; both
emit nothing for diagnostics lacking the marker. -/
theorem C7_in_use_mirrors_lock_denied (reg : Registry) (d : ErrorInfo) :
    ((np_err_sr2nc_in_use reg d).isSome ↔
      (np_err_sr2nc_lock_denied reg d).isSome) ∧
    ((np_err_sr2nc_in_use reg d).isSome ↔
      ∃ a t, d.firstMsg = a ++ dsLockedMarker ++ t) ∧
    (∀ e e', np_err_sr2nc_in_use reg d = some e →
      np_err_sr2nc_lock_denied reg d = some e' →
      e.errorType = e'.errorType ∧ e.errorAppTag = e'.errorAppTag ∧
      e.errorPath = e'.errorPath ∧ e.infoElements = e'.infoElements ∧
      e.errorTag = "in-use" ∧ e'.errorTag = "lock-denied" ∧
      e.message = inUseText ∧ e'.message = lockDeniedText) := by
  cases hf : findSub dsLockedMarker d.firstMsg with
  | none =>
    have h1 : np_err_sr2nc_in_use reg d = none := by
      simp [np_err_sr2nc_in_use, hf]
    have h2 : np_err_sr2nc_lock_denied reg d = none := by
      simp [np_err_sr2nc_lock_denied, hf]
    refine ⟨by rw [h1, h2], ?_, ?_⟩
    · rw [h1]
      simp only [Option.isSome_none, Bool.false_eq_true, false_iff]
      exact fun hex => (not_decomp_of_findSub_none _ _ hf) hex
    · intro e e' he _
      rw [h1] at he
      cases he
  | some i =>
    obtain ⟨a, t, hat, _⟩ := findSub_eq_some_decomp _ _ _ hf
    refine ⟨by simp [np_err_sr2nc_in_use, np_err_sr2nc_lock_denied, hf], ?_, ?_⟩
    · constructor
      · intro _
        exact ⟨a, t, hat⟩
      · intro _
        simp [np_err_sr2nc_in_use, hf]
    · intro e e' he he'
      simp only [np_err_sr2nc_in_use, hf] at he
      simp only [np_err_sr2nc_lock_denied, hf] at he'
      cases he
      cases he'
      exact ⟨rfl, rfl, rfl, rfl, rfl, rfl, rfl, rfl⟩

def regW7 : Registry := fun n => if n = 5 then some 77 else none

def dW7 : ErrorInfo := ⟨"DS-locked by session 5".toList, []⟩

def eInW7 : StructuredError :=
  { errorType := "protocol", errorTag := "in-use", errorAppTag := none,
    errorPath := none, message := inUseText,
    infoElements := [("session-id", "77")] }

def eLockW7 : StructuredError :=
  { errorType := "protocol", errorTag := "lock-denied", errorAppTag := none,
    errorPath := none, message := lockDeniedText,
    infoElements := [("session-id", "77")] }

/-- Witness for C7 at a concrete marker-bearing diagnostic with session 5
resolving to protocol id 77. -/
theorem C7_witness :
    ((np_err_sr2nc_in_use regW7 dW7).isSome ↔
      (np_err_sr2nc_lock_denied regW7 dW7).isSome) ∧
    eInW7.errorTag = "in-use" ∧ eLockW7.errorTag = "lock-denied" ∧
    eInW7.infoElements = eLockW7.infoElements := by
  have h := (C7_in_use_mirrors_lock_denied regW7 dW7).2.2 eInW7 eLockW7
    (by decide) (by decide)
  exact ⟨(C7_in_use_mirrors_lock_denied regW7 dW7).1,
    h.2.2.2.2.1, h.2.2.2.2.2.1, h.2.2.2.1⟩

/-- C9: the output of each diagnostic-consuming translator is a deterministic
function of the first message of the diagnostic and the registry state, so
translating the same diagnostic twice with an unchanged registry yields
identical output; no hidden counter or mutable module state can influence the
result (the remaining messages of the record do not either). -/
theorem C9_deterministic (reg : Registry) (d d' : ErrorInfo)
    (h : d.firstMsg = d'.firstMsg) :
    np_err_sr2nc_lock_denied reg d = np_err_sr2nc_lock_denied reg d' ∧
    np_err_sr2nc_in_use reg d = np_err_sr2nc_in_use reg d' ∧
    np_err_sr2nc_edit d = np_err_sr2nc_edit d' := by
  refine ⟨?_, ?_, ?_⟩
  · simp only [np_err_sr2nc_lock_denied, h]
  · simp only [np_err_sr2nc_in_use, h]
  · simp only [np_err_sr2nc_edit, h]

/-- Witness for C9: two records sharing their first message translate the
same. -/
theorem C9_witness :
    np_err_sr2nc_edit ⟨"Some other validation failure.".toList, []⟩ =
      np_err_sr2nc_edit ⟨"Some other validation failure.".toList,
        ["second ignored message".toList]⟩ :=
  (C9_deterministic (fun _ => none) _ _ rfl).2.2

/-- C6: the candidate path is extracted from the first occurrence of
"data location " (offset 14 past the marker start), else from the first
occurrence of "Schema location " (offset 16), in both cases up to two
characters before the end of the message; if neither marker occurs there is
no path. -/
theorem C6_path_extraction (msg : Msg) :
    (∀ i, findSub dataLocMarker msg = some i → 2 ≤ msg.length - (i + 14) →
      extractPath msg =
        some ((msg.drop (i + 14)).take (msg.length - 2 - (i + 14)))) ∧
    (findSub dataLocMarker msg = none →
      ∀ i, findSub schemaLocMarker msg = some i → 2 ≤ msg.length - (i + 16) →
      extractPath msg =
        some ((msg.drop (i + 16)).take (msg.length - 2 - (i + 16)))) ∧
    (findSub dataLocMarker msg = none → findSub schemaLocMarker msg = none →
      extractPath msg = none) := by
  refine ⟨?_, ?_, ?_⟩
  · intro i hf hlen
    have hmark : dataLocMarker.length = 14 := by decide
    have hl : (msg.drop (i + 14)).length = msg.length - (i + 14) := by
      simp [List.length_drop]
    simp only [extractPath, hf, hmark, strndupLenMinus2, hl]
    rw [if_pos hlen]
    congr 2
    omega
  · intro hf1 i hf2 hlen
    have hmark : schemaLocMarker.length = 16 := by decide
    have hl : (msg.drop (i + 16)).length = msg.length - (i + 16) := by
      simp [List.length_drop]
    simp only [extractPath, hf1, hf2, hmark, strndupLenMinus2, hl]
    rw [if_pos hlen]
    congr 2
    omega
  · intro hf1 hf2
    simp [extractPath, hf1, hf2]

/-- Witness for C6: both markers and the no-marker case at concrete inputs. -/
theorem C6_witness :
    extractPath "x data location /a/b\".".toList = some "/a/b".toList ∧
    extractPath "m Schema location /x/y\".".toList = some "/x/y".toList ∧
    extractPath "no markers at all".toList = none := by
  refine ⟨?_, ?_, ?_⟩
  · have h := (C6_path_extraction "x data location /a/b\".".toList).1 2
      (by decide) (by decide)
    rw [h]
    decide
  · have h := (C6_path_extraction "m Schema location /x/y\".".toList).2.1
      (by decide) 2 (by decide) (by decide)
    rw [h]
    decide
  · exact (C6_path_extraction _).2.2 (by decide) (by decide)

def cBugMsg : Msg := "Invalid instance-identifie required instance not found".toList

/-- C2 divergence: this message matches none of the eight patterns of the
specification (in particular it does not start with the full 27-character
pattern "Invalid instance-identifier"), so the claim requires the original
error record to be copied verbatim; the code however compares only the first
26 characters of that pattern, enters the instance-identifier branch and then
violates its own assertion that character 28 is a double quote, so no verbatim
copy is emitted. -/
theorem C2_code_bug :
    (¬ ∃ t, cBugMsg = "Unique data leaf(s)".toList ++ t) ∧
    (¬ ∃ t, cBugMsg = "Too many".toList ++ t) ∧
    (¬ ∃ t, cBugMsg = "Too few".toList ++ t) ∧
    (¬ ∃ t, cBugMsg = "Must condition".toList ++ t) ∧
    (¬ ((∃ t, cBugMsg = "Invalid leafref value".toList ++ t) ∧
        containsSub noTargetMarker cBugMsg = true)) ∧
    (¬ ((∃ t, cBugMsg = "Invalid instance-identifier".toList ++ t) ∧
        containsSub noInstMarker cBugMsg = true)) ∧
    (¬ ∃ t, cBugMsg = "Mandatory choice".toList ++ t) ∧
    np_err_sr2nc_edit ⟨cBugMsg, []⟩ ≠ some Emission.dup ∧
    np_err_sr2nc_edit ⟨cBugMsg, []⟩ = none := by
  refine ⟨?_, ?_, ?_, ?_, ?_, ?_, ?_, by decide, by decide⟩
  · exact fun ⟨t, ht⟩ => absurd ((isPre_iff _ _).mpr ⟨t, ht⟩) (by decide)
  · exact fun ⟨t, ht⟩ => absurd ((isPre_iff _ _).mpr ⟨t, ht⟩) (by decide)
  · exact fun ⟨t, ht⟩ => absurd ((isPre_iff _ _).mpr ⟨t, ht⟩) (by decide)
  · exact fun ⟨t, ht⟩ => absurd ((isPre_iff _ _).mpr ⟨t, ht⟩) (by decide)
  · exact fun ⟨⟨t, ht⟩, _⟩ => absurd ((isPre_iff _ _).mpr ⟨t, ht⟩) (by decide)
  · exact fun ⟨⟨t, ht⟩, _⟩ => absurd ((isPre_iff _ _).mpr ⟨t, ht⟩) (by decide)
  · exact fun ⟨t, ht⟩ => absurd ((isPre_iff _ _).mpr ⟨t, ht⟩) (by decide)

def dMustEx : ErrorInfo := ⟨"Must condition x (data location /a/b).".toList, []⟩

def eMustEx : StructuredError :=
  { errorType := "protocol", errorTag := "operation-failed",
    errorAppTag := some "must-violation", errorPath := some "/a/b",
    message := "Must condition x", infoElements := [] }

/-- Counterexample to C3 as stated: on this Must-condition diagnostic the
emitted error carries errorTag operation-failed and app tag must-violation;
the errorTag is not must-violation as the claim asserts. -/
theorem C3_counterexample :
    np_err_sr2nc_edit dMustEx = some (Emission.set eMustEx) ∧
    eMustEx.errorTag = "operation-failed" ∧
    eMustEx.errorAppTag = some "must-violation" ∧
    eMustEx.errorTag ≠ "must-violation" := by
  exact ⟨by decide, by decide, by decide, by decide⟩

/-- C3 amended: for a first message starting with "Must condition", with a
left parenthesis whose last occurrence is not at position 0 and a non-empty
extracted path, the emitted error has errorTag operation-failed, app tag
must-violation, errorPath the extracted path, and message equal to the
message text up to but excluding the character immediately before the last
left parenthesis. -/
theorem C3_amended_must_condition (d : ErrorInfo) (rest p : Msg) (j : Nat)
    (hmsg : d.firstMsg = "Must condition".toList ++ rest)
    (hpar : strrchrIdx '(' d.firstMsg = some j)
    (hj : 0 < j)
    (hpath : extractPath d.firstMsg = some p)
    (hp : p ≠ []) :
    np_err_sr2nc_edit d = some (Emission.set
      { errorType := "protocol", errorTag := "operation-failed",
        errorAppTag := some "must-violation", errorPath := some (String.mk p),
        message := String.mk (d.firstMsg.take (j - 1)), infoElements := [] }) := by
  obtain ⟨m, rs⟩ := d
  dsimp only at hmsg hpar hpath ⊢
  subst hmsg
  have e1 : startsWithN ("Must condition".toList ++ rest)
      "Unique data leaf(s)" 19 = false := rfl
  have e2 : startsWithN ("Must condition".toList ++ rest) "Too many" 8 = false := rfl
  have e3 : startsWithN ("Must condition".toList ++ rest) "Too few" 7 = false := rfl
  have e4 : startsWithN ("Must condition".toList ++ rest)
      "Must condition" 14 = true := rfl
  simp only [np_err_sr2nc_edit, e1, e2, e3, e4, hpar, hpath]
  simp

/-- Witness for C3 amended at the counterexample diagnostic. -/
theorem C3_witness :
    np_err_sr2nc_edit dMustEx = some (Emission.set eMustEx) := by
  have h := C3_amended_must_condition dMustEx " x (data location /a/b).".toList
    "/a/b".toList 17 (by decide) (by decide) (by decide) (by decide) (by decide)
  rw [h]
  decide

/-- C4: for a first message starting with "Mandatory choice" whose extracted
path contains a slash, the emitted error has errorTag data-missing, app tag
mandatory-choice, message "Missing mandatory choice.", info element
missing-choice holding the path, and errorPath the parent obtained by
truncating the path at its last slash, except that when the last slash is the
first character the parent is that single character. -/
theorem C4_mandatory_choice (d : ErrorInfo) (rest p : Msg) (j : Nat)
    (hmsg : d.firstMsg = "Mandatory choice".toList ++ rest)
    (hpath : extractPath d.firstMsg = some p)
    (hslash : strrchrIdx '/' p = some j) :
    np_err_sr2nc_edit d = some (Emission.set
      { errorType := "protocol", errorTag := "data-missing",
        errorAppTag := some "mandatory-choice",
        errorPath := some (String.mk (p.take (if j = 0 then 1 else j))),
        message := "Missing mandatory choice.",
        infoElements := [("missing-choice", String.mk p)] }) := by
  obtain ⟨m, rs⟩ := d
  dsimp only at hmsg hpath ⊢
  subst hmsg
  have e1 : startsWithN ("Mandatory choice".toList ++ rest)
      "Unique data leaf(s)" 19 = false := rfl
  have e2 : startsWithN ("Mandatory choice".toList ++ rest) "Too many" 8 = false := rfl
  have e3 : startsWithN ("Mandatory choice".toList ++ rest) "Too few" 7 = false := rfl
  have e4 : startsWithN ("Mandatory choice".toList ++ rest)
      "Must condition" 14 = false := rfl
  have e5 : (startsWithN ("Mandatory choice".toList ++ rest)
      "Invalid leafref value" 21 &&
      containsSub noTargetMarker ("Mandatory choice".toList ++ rest)) = false := rfl
  have e6 : (startsWithN ("Mandatory choice".toList ++ rest)
      "Invalid instance-identifier" 26 &&
      containsSub noInstMarker ("Mandatory choice".toList ++ rest)) = false := rfl
  have e7 : startsWithN ("Mandatory choice".toList ++ rest)
      "Mandatory choice" 16 = true := rfl
  simp only [np_err_sr2nc_edit, e1, e2, e3, e4, e5, e6, e7, hpath, hslash]
  simp

/-- Witness for C4 matching the specification example: path /x/y, parent /x. -/
theorem C4_witness :
    np_err_sr2nc_edit ⟨"Mandatory choice fail. Schema location /x/y\".".toList, []⟩ =
      some (Emission.set
        { errorType := "protocol", errorTag := "data-missing",
          errorAppTag := some "mandatory-choice", errorPath := some "/x",
          message := "Missing mandatory choice.",
          infoElements := [("missing-choice", "/x/y")] }) := by
  have h := C4_mandatory_choice
    ⟨"Mandatory choice fail. Schema location /x/y\".".toList, []⟩
    " fail. Schema location /x/y\".".toList "/x/y".toList 2
    (by decide) (by decide) (by decide)
  rw [h]
  decide

/-- C5: for a first message starting with "Invalid leafref value" and
containing "no existing target instance", with a double quote at index 22, a
closing double quote after index 23 and a non-empty extracted path, the
emitted error has errorTag data-missing, app tag instance-required, errorPath
the extracted path, and the message composed around the value extracted
between index 23 and the next double quote. -/
theorem C5_leafref_value (d : ErrorInfo) (rest p : Msg) (q : Nat)
    (hmsg : d.firstMsg = "Invalid leafref value".toList ++ rest)
    (hcont : containsSub noTargetMarker d.firstMsg = true)
    (hq : d.firstMsg.get? 22 = some '\"')
    (hclose : findSub ['\"'] (d.firstMsg.drop 23) = some q)
    (hpath : extractPath d.firstMsg = some p)
    (hp : p ≠ []) :
    np_err_sr2nc_edit d = some (Emission.set
      { errorType := "protocol", errorTag := "data-missing",
        errorAppTag := some "instance-required", errorPath := some (String.mk p),
        message := String.mk ("Required leafref target with value \"".toList ++
          (d.firstMsg.drop 23).take q ++ "\" missing.".toList),
        infoElements := [] }) := by
  obtain ⟨m, rs⟩ := d
  dsimp only at hmsg hcont hq hclose hpath ⊢
  subst hmsg
  have e1 : startsWithN ("Invalid leafref value".toList ++ rest)
      "Unique data leaf(s)" 19 = false := rfl
  have e2 : startsWithN ("Invalid leafref value".toList ++ rest)
      "Too many" 8 = false := rfl
  have e3 : startsWithN ("Invalid leafref value".toList ++ rest)
      "Too few" 7 = false := rfl
  have e4 : startsWithN ("Invalid leafref value".toList ++ rest)
      "Must condition" 14 = false := rfl
  have e5 : startsWithN ("Invalid leafref value".toList ++ rest)
      "Invalid leafref value" 21 = true := rfl
  simp only [np_err_sr2nc_edit, e1, e2, e3, e4, e5, hcont, hq, hclose, hpath]
  simp

def msg5str : String :=
  "Invalid leafref value \"foo\" - no existing target instance; data location /p/q\"."

/-- Witness for C5 matching the specification example: value foo, path /p/q. -/
theorem C5_witness :
    np_err_sr2nc_edit ⟨msg5str.toList, []⟩ = some (Emission.set
      { errorType := "protocol", errorTag := "data-missing",
        errorAppTag := some "instance-required", errorPath := some "/p/q",
        message := "Required leafref target with value \"foo\" missing.",
        infoElements := [] }) := by
  have h := C5_leafref_value ⟨msg5str.toList, []⟩
    " \"foo\" - no existing target instance; data location /p/q\".".toList
    "/p/q".toList 3
    (by decide) (by decide) (by decide) (by decide) (by decide) (by decide)
  rw [h]
  decide

/-- Helper for C8: every structured error synthesized by np_err_sr2nc_edit is
well formed. -/
theorem edit_wf (d : ErrorInfo) (e : StructuredError)
    (h : np_err_sr2nc_edit d = some (Emission.set e)) : wfErr e := by
  simp only [np_err_sr2nc_edit] at h
  by_cases hc1 : startsWithN d.firstMsg "Unique data leaf(s)" 19 = true
  · rw [if_pos hc1] at h
    cases hp : extractPath d.firstMsg with
    | none => simp only [hp] at h; exact Option.noConfusion h
    | some path =>
      simp only [hp] at h
      injection h with h1
      injection h1 with h2
      subst h2
      exact ⟨by simp, by simp, by simp⟩
  · rw [if_neg hc1] at h
    by_cases hc2 : startsWithN d.firstMsg "Too many" 8 = true
    · rw [if_pos hc2] at h
      cases hp : extractPath d.firstMsg with
      | none => simp only [hp] at h; exact Option.noConfusion h
      | some path =>
        simp only [hp] at h
        injection h with h1
        injection h1 with h2
        subst h2
        exact ⟨by simp, by simp, by simp⟩
    · rw [if_neg hc2] at h
      by_cases hc3 : startsWithN d.firstMsg "Too few" 7 = true
      · rw [if_pos hc3] at h
        cases hp : extractPath d.firstMsg with
        | none => simp only [hp] at h; exact Option.noConfusion h
        | some path =>
          simp only [hp] at h
          injection h with h1
          injection h1 with h2
          subst h2
          exact ⟨by simp, by simp, by simp⟩
      · rw [if_neg hc3] at h
        by_cases hc4 : startsWithN d.firstMsg "Must condition" 14 = true
        · rw [if_pos hc4] at h
          cases hs : strrchrIdx '(' d.firstMsg with
          | none => simp only [hs] at h; exact Option.noConfusion h
          | some j =>
            cases hp : extractPath d.firstMsg with
            | none => simp only [hs, hp] at h; exact Option.noConfusion h
            | some path =>
              simp only [hs, hp] at h
              injection h with h1
              injection h1 with h2
              subst h2
              refine ⟨by simp, ?_, by simp⟩
              have h4i : isPre ("Must condition".toList.take 14) d.firstMsg = true := hc4
              obtain ⟨t, hmt⟩ := (isPre_iff _ _).mp h4i
              have hjget := strrchrIdx_get '(' d.firstMsg j hs
              have hlen : ("Must condition".toList.take 14).length = 14 := by decide
              have hj14 : 14 ≤ j := by
                by_contra hlt
                push_neg at hlt
                rw [hmt, List.get?_append (by rw [hlen]; omega)] at hjget
                have hall : ∀ k, k < 14 →
                    ("Must condition".toList.take 14).get? k ≠ some '(' := by decide
                exact hall j hlt hjget
              have h0 : (d.firstMsg.take (j - 1)).get? 0 = some 'M' := by
                rw [List.get?_take (by omega)]
                rw [hmt, List.get?_append (by rw [hlen]; omega)]
                decide
              apply String_mk_ne_empty
              intro hnil
              rw [hnil] at h0
              simp at h0
        · rw [if_neg hc4] at h
          by_cases hc5 : (startsWithN d.firstMsg "Invalid leafref value" 21 &&
              containsSub noTargetMarker d.firstMsg) = true
          · rw [if_pos hc5] at h
            by_cases hq : d.firstMsg.get? 22 = some '\"'
            · rw [if_pos hq] at h
              cases hcl : findSub ['\"'] (d.firstMsg.drop 23) with
              | none => simp only [hcl] at h; exact Option.noConfusion h
              | some q =>
                cases hp : extractPath d.firstMsg with
                | none => simp only [hcl, hp] at h; exact Option.noConfusion h
                | some path =>
                  simp only [hcl, hp] at h
                  injection h with h1
                  injection h1 with h2
                  subst h2
                  exact ⟨by simp, String_mk_ne_empty _ (by simp), by simp⟩
            · rw [if_neg hq] at h
              exact Option.noConfusion h
          · rw [if_neg hc5] at h
            by_cases hc6 : (startsWithN d.firstMsg "Invalid instance-identifier" 26 &&
                containsSub noInstMarker d.firstMsg) = true
            · rw [if_pos hc6] at h
              by_cases hq : d.firstMsg.get? 28 = some '\"'
              · rw [if_pos hq] at h
                cases hcl : findSub ['\"'] (d.firstMsg.drop 29) with
                | none => simp only [hcl] at h; exact Option.noConfusion h
                | some q =>
                  cases hp : extractPath d.firstMsg with
                  | none => simp only [hcl, hp] at h; exact Option.noConfusion h
                  | some path =>
                    simp only [hcl, hp] at h
                    injection h with h1
                    injection h1 with h2
                    subst h2
                    exact ⟨by simp, String_mk_ne_empty _ (by simp), by simp⟩
              · rw [if_neg hq] at h
                exact Option.noConfusion h
            · rw [if_neg hc6] at h
              by_cases hc7 : startsWithN d.firstMsg "Mandatory choice" 16 = true
              · rw [if_pos hc7] at h
                cases hp : extractPath d.firstMsg with
                | none => simp only [hp] at h; exact Option.noConfusion h
                | some path =>
                  cases hs : strrchrIdx '/' path with
                  | none => simp only [hp, hs] at h; exact Option.noConfusion h
                  | some j =>
                    simp only [hp, hs] at h
                    injection h with h1
                    injection h1 with h2
                    subst h2
                    exact ⟨by simp, by simp, by simp⟩
              · rw [if_neg hc7] at h
                injection h with h1
                exact Emission.noConfusion h1

/-- Counterexample to C8 as stated: np_err_sr2nc_same_ds passes the caller
message through verbatim, so the empty caller message yields an emitted
structured error whose message is empty, contradicting the unconditional
non-empty-message invariant. -/
theorem C8_counterexample :
    (np_err_sr2nc_same_ds "").errorTag = "invalid-value" ∧
    (np_err_sr2nc_same_ds "").message = "" := by
  exact ⟨by decide, by decide⟩

/-- C8 amended: every structured error emitted by any public operation has a
non-empty errorTag and unique info-element names, and its message is
non-empty provided the caller-supplied message or description strings that
are passed through verbatim are themselves non-empty; fixed-message
operations always emit a non-empty message. -/
theorem C8_amended_well_formed :
    (∀ reg d e, np_err_sr2nc_lock_denied reg d = some e → wfErr e) ∧
    (∀ reg d e, np_err_sr2nc_in_use reg d = some e → wfErr e) ∧
    (∀ m, m ≠ "" → wfErr (np_err_sr2nc_same_ds m)) ∧
    (∀ n, wfErr (np_err_missing_element n)) ∧
    (∀ n desc, desc ≠ "" → wfErr (np_err_bad_element n desc)) ∧
    (∀ desc b, desc ≠ "" → wfErr (np_err_invalid_value desc b)) ∧
    (∀ m, m ≠ "" → wfErr (np_err_ntf_sub_no_such_sub m)) ∧
    (∀ d e, np_err_sr2nc_edit d = some (Emission.set e) → wfErr e) := by
  refine ⟨?_, ?_, ?_, ?_, ?_, ?_, ?_, ?_⟩
  · intro reg d e h
    simp only [np_err_sr2nc_lock_denied] at h
    cases hf : findSub dsLockedMarker d.firstMsg with
    | none => simp only [hf] at h; exact Option.noConfusion h
    | some i =>
      simp only [hf] at h
      injection h with h1
      subst h1
      exact ⟨by simp, by simp [lockDeniedText], by simp⟩
  · intro reg d e h
    simp only [np_err_sr2nc_in_use] at h
    cases hf : findSub dsLockedMarker d.firstMsg with
    | none => simp only [hf] at h; exact Option.noConfusion h
    | some i =>
      simp only [hf] at h
      injection h with h1
      subst h1
      exact ⟨by simp, by simp [inUseText], by simp⟩
  · intro m hm
    exact ⟨by simp [np_err_sr2nc_same_ds], hm, by simp [np_err_sr2nc_same_ds]⟩
  · intro n
    exact ⟨by simp [np_err_missing_element], by simp [np_err_missing_element],
      by simp [np_err_missing_element]⟩
  · intro n desc hd
    exact ⟨by simp [np_err_bad_element], hd, by simp [np_err_bad_element]⟩
  · intro desc b hd
    cases b with
    | some n =>
      exact ⟨by simp [np_err_invalid_value], hd, by simp [np_err_invalid_value]⟩
    | none =>
      exact ⟨by simp [np_err_invalid_value], hd, by simp [np_err_invalid_value]⟩
  · intro m hm
    exact ⟨by simp [np_err_ntf_sub_no_such_sub], hm,
      by simp [np_err_ntf_sub_no_such_sub]⟩
  · exact edit_wf

/-- Witness for C8 amended at concrete non-empty caller strings. -/
theorem C8_witness :
    wfErr (np_err_sr2nc_same_ds "x") ∧ wfErr (np_err_missing_element "a") :=
  ⟨C8_amended_well_formed.2.2.1 "x" (by decide),
   C8_amended_well_formed.2.2.2.1 "a"⟩

/-- C10: whenever the asserted preconditions of whichever branch applies hold
(a path whenever the matched branch dereferences one, a last left parenthesis
for the Must branch, the expected quotes for the two value branches, a slash
in the path for the Mandatory branch), np_err_sr2nc_edit performs exactly one
emission: in the model an Option carries at most one emission, so isSome
states that exactly one structured error is set or the record is copied
verbatim once; the if chain ends in an unconditional else so no input with
valid preconditions produces zero emissions. -/
theorem C10_exactly_one_emission (d : ErrorInfo)
    (h1 : startsWithN d.firstMsg "Unique data leaf(s)" 19 = true →
      (extractPath d.firstMsg).isSome = true)
    (h2 : startsWithN d.firstMsg "Too many" 8 = true →
      (extractPath d.firstMsg).isSome = true)
    (h3 : startsWithN d.firstMsg "Too few" 7 = true →
      (extractPath d.firstMsg).isSome = true)
    (h4 : startsWithN d.firstMsg "Must condition" 14 = true →
      (strrchrIdx '(' d.firstMsg).isSome = true ∧
      (extractPath d.firstMsg).isSome = true)
    (h5 : (startsWithN d.firstMsg "Invalid leafref value" 21 &&
        containsSub noTargetMarker d.firstMsg) = true →
      d.firstMsg.get? 22 = some '\"' ∧
      (findSub ['\"'] (d.firstMsg.drop 23)).isSome = true ∧
      (extractPath d.firstMsg).isSome = true)
    (h6 : (startsWithN d.firstMsg "Invalid instance-identifier" 26 &&
        containsSub noInstMarker d.firstMsg) = true →
      d.firstMsg.get? 28 = some '\"' ∧
      (findSub ['\"'] (d.firstMsg.drop 29)).isSome = true ∧
      (extractPath d.firstMsg).isSome = true)
    (h7 : startsWithN d.firstMsg "Mandatory choice" 16 = true →
      ((extractPath d.firstMsg).bind (fun p => strrchrIdx '/' p)).isSome = true) :
    (np_err_sr2nc_edit d).isSome = true := by
  simp only [np_err_sr2nc_edit]
  by_cases hc1 : startsWithN d.firstMsg "Unique data leaf(s)" 19 = true
  · rw [if_pos hc1]
    obtain ⟨p, hp⟩ := Option.isSome_iff_exists.mp (h1 hc1)
    simp only [hp]; rfl
  · rw [if_neg hc1]
    by_cases hc2 : startsWithN d.firstMsg "Too many" 8 = true
    · rw [if_pos hc2]
      obtain ⟨p, hp⟩ := Option.isSome_iff_exists.mp (h2 hc2)
      simp only [hp]; rfl
    · rw [if_neg hc2]
      by_cases hc3 : startsWithN d.firstMsg "Too few" 7 = true
      · rw [if_pos hc3]
        obtain ⟨p, hp⟩ := Option.isSome_iff_exists.mp (h3 hc3)
        simp only [hp]; rfl
      · rw [if_neg hc3]
        by_cases hc4 : startsWithN d.firstMsg "Must condition" 14 = true
        · rw [if_pos hc4]
          obtain ⟨hsi, hpi⟩ := h4 hc4
          obtain ⟨j, hs⟩ := Option.isSome_iff_exists.mp hsi
          obtain ⟨p, hp⟩ := Option.isSome_iff_exists.mp hpi
          simp only [hs, hp]; rfl
        · rw [if_neg hc4]
          by_cases hc5 : (startsWithN d.firstMsg "Invalid leafref value" 21 &&
              containsSub noTargetMarker d.firstMsg) = true
          · rw [if_pos hc5]
            obtain ⟨hq, hcli, hpi⟩ := h5 hc5
            rw [if_pos hq]
            obtain ⟨q, hcl⟩ := Option.isSome_iff_exists.mp hcli
            obtain ⟨p, hp⟩ := Option.isSome_iff_exists.mp hpi
            simp only [hcl, hp]; rfl
          · rw [if_neg hc5]
            by_cases hc6 : (startsWithN d.firstMsg "Invalid instance-identifier" 26 &&
                containsSub noInstMarker d.firstMsg) = true
            · rw [if_pos hc6]
              obtain ⟨hq, hcli, hpi⟩ := h6 hc6
              rw [if_pos hq]
              obtain ⟨q, hcl⟩ := Option.isSome_iff_exists.mp hcli
              obtain ⟨p, hp⟩ := Option.isSome_iff_exists.mp hpi
              simp only [hcl, hp]; rfl
            · rw [if_neg hc6]
              by_cases hc7 : startsWithN d.firstMsg "Mandatory choice" 16 = true
              · rw [if_pos hc7]
                have hb := h7 hc7
                cases hp : extractPath d.firstMsg with
                | none => rw [hp] at hb; simp at hb
                | some p =>
                  rw [hp] at hb
                  simp only [Option.some_bind] at hb
                  obtain ⟨j, hj⟩ := Option.isSome_iff_exists.mp hb
                  simp only [hp, hj]; rfl
              · rw [if_neg hc7]
                rfl

/-- Witness for C10 at a concrete Unique-constraint diagnostic. -/
theorem C10_witness :
    (np_err_sr2nc_edit
      ⟨"Unique data leaf(s) x data location /a/b\".".toList, []⟩).isSome = true :=
  C10_exactly_one_emission _ (by decide) (by decide) (by decide) (by decide)
    (by decide) (by decide) (by decide)

end ErrNetconf
